import Mathlib

/-!
# Verification of the claude-voice session coordinator

Shallow embedding of the voice-session coordinator of the `claude-voice`
repository, together with proofs about the behaviour its specification
describes.  Each definition mirrors one function of the TypeScript source;
stateful methods become explicit state-passing functions, side effects
(emitted events, spawned subprocesses, network connections) become explicit
output values, and Node byte buffers become `List Nat` with each element a
byte value.
-/

namespace ClaudeVoice

/-- A byte of a Node `Buffer`. -/
abbrev Byte := Nat

/-- `VoiceState` enum of `src/types.ts`: IDLE, LISTENING, PROCESSING, SPEAKING. -/
inductive VoiceState where
  | idle
  | listening
  | processing
  | speaking
deriving DecidableEq, Repr

/-! ## HotkeyListener (`src/voice/hotkey-listener.ts`)

The mutable fields of the `HotkeyListener` class that the HTTP request
handler touches: `pttActive` and the single-slot transcript mailbox
`lastTranscription`. -/

structure ListenerState where
  pttActive : Bool
  lastTranscription : String
deriving DecidableEq, Repr

/-- Events the listener emits (`this.emit(...)` calls). -/
inductive LEvent where
  | pttStart
  | pttEnd
  | speakEvt (text : String)
deriving DecidableEq, Repr

/-- `setTranscription(text)`: store the transcript in the mailbox. -/
def setTranscription (text : String) (s : ListenerState) : ListenerState :=
  { s with lastTranscription := text }

/-- `getTranscription()`: return the stored transcript and clear the slot. -/
def getTranscription (s : ListenerState) : String × ListenerState :=
  (s.lastTranscription, { s with lastTranscription := "" })

/-- `handleStart()`: only when `pttActive` is false, set it and emit `ptt:start`. -/
def handleStart (s : ListenerState) : ListenerState × List LEvent :=
  if s.pttActive then (s, [])
  else ({ s with pttActive := true }, [LEvent.pttStart])

/-- `handleStop()`: only when `pttActive` is true, clear it and emit `ptt:end`. -/
def handleStop (s : ListenerState) : ListenerState × List LEvent :=
  if s.pttActive then ({ s with pttActive := false }, [LEvent.pttEnd])
  else (s, [])

/-- HTTP methods distinguished by the request handler.  `GET`, `POST` and
`OPTIONS` have dedicated branches; every other method falls through to the
final `else` (we list two concrete representatives). -/
inductive Method where
  | get
  | post
  | options
  | put
  | delete
deriving DecidableEq, Repr

/-- What the handler writes back: `res.writeHead(status)` / `res.end(body)`. -/
structure Response where
  status : Nat
  body : String
deriving DecidableEq, Repr

/-- The HTTP request handler installed by `HotkeyListener.start()`
(hotkey-listener.ts lines 54-121).  `body` is the fully received request
body (the source collects it from `data` events before acting). -/
def handleRequest (m : Method) (url : String) (body : String) (s : ListenerState) :
    ListenerState × Response × List LEvent :=
  match m with
  | Method.options => (s, ⟨200, ""⟩, [])
  | Method.get =>
    if url = "/transcription" then
      let (text, s1) := getTranscription s
      (s1, ⟨200, text⟩, [])
    else if url = "/status" then
      (s, ⟨200, if s.pttActive then "\x7b\"active\":true\x7d" else "\x7b\"active\":false\x7d"⟩, [])
    else
      (s, ⟨404, "not found"⟩, [])
  | Method.post =>
    if url = "/ptt/start" then
      let (s1, evs) := handleStart s
      (s1, ⟨200, "ok"⟩, evs)
    else if url = "/ptt/stop" then
      let (s1, evs) := handleStop s
      (s1, ⟨200, "ok"⟩, evs)
    else if url = "/ptt/toggle" then
      let (s1, evs) := if s.pttActive then handleStop s else handleStart s
      (s1, ⟨200, "ok"⟩, evs)
    else if url = "/speak" then
      (s, ⟨200, "ok"⟩, if body.trim ≠ "" then [LEvent.speakEvt body] else [])
    else
      (s, ⟨404, "not found"⟩, [])
  | Method.put => (s, ⟨405, "method not allowed"⟩, [])
  | Method.delete => (s, ⟨405, "method not allowed"⟩, [])

/-! ## AudioEngine (`src/voice/audio-engine.ts`)

Mutable fields: `isRecording`, the chunk list `audioBuffer`, and whether the
`rec` subprocess handle is live (`recordingProcess !== null`). -/

structure AudioEngine where
  isRecording : Bool
  procAlive : Bool
  audioBuffer : List (List Byte)
deriving DecidableEq, Repr

def AudioEngine.init : AudioEngine := ⟨false, false, []⟩

/-- `startRecording()`: no-op while recording; otherwise reset the chunk list,
set `isRecording` and spawn the capture subprocess.  The returned Bool reports
whether a subprocess was spawned. -/
def startRecording (e : AudioEngine) : AudioEngine × Bool :=
  if e.isRecording then (e, false)
  else ({ isRecording := true, procAlive := true, audioBuffer := [] }, true)

/-- A `data` event from the capture subprocess stdout: append the chunk. -/
def dataChunk (chunk : List Byte) (e : AudioEngine) : AudioEngine :=
  if e.procAlive then { e with audioBuffer := e.audioBuffer ++ [chunk] } else e

/-- `stopRecording()`: kill the subprocess (if any), clear `isRecording`, and
return `Buffer.concat(this.audioBuffer)`.  Note the source does NOT clear
`audioBuffer` here (it is reset only by the next `startRecording`;
`getWavBuffer()` reads it after a stop). -/
def stopRecording (e : AudioEngine) : AudioEngine × List Byte :=
  ({ e with isRecording := false, procAlive := false }, e.audioBuffer.flatten)

/-! ## pcmToWav (`src/voice/audio-engine.ts` lines 178-205, and the
byte-identical copy in the whisper-cpp provider)

The source allocates a 44-byte header and fills it with thirteen contiguous
writes at offsets 0,4,8,12,16,20,22,24,28,32,34,36,40; we build the same 44
bytes as the concatenation of those writes in source order.  Node's
`Buffer.writeUInt32LE` / `writeUInt16LE` throw on values outside the field
range, so the embedding returns `none` exactly when one of the written values
would be out of range. -/

/-- ASCII bytes of a string, as written by `buffer.write(str, offset)`. -/
def strBytes (s : String) : List Byte := s.data.map Char.toNat

/-- Little-endian 4-byte encoding (the bytes `writeUInt32LE` stores). -/
def u32le (v : Nat) : List Byte :=
  [v % 256, v / 256 % 256, v / 65536 % 256, v / 16777216 % 256]

/-- Little-endian 2-byte encoding (the bytes `writeUInt16LE` stores). -/
def u16le (v : Nat) : List Byte := [v % 256, v / 256 % 256]

/-- The 44-byte header: the source allocates `Buffer.alloc(44)` and fills it
with thirteen contiguous writes at offsets 0, 4, 8, 12, 16, 20, 22, 24, 28,
32, 34, 36, 40; their concatenation in source order is the header. -/
def wavHeader (dataSize sampleRate channels bitsPerSample byteRate blockAlign : Nat) :
    List Byte :=
  strBytes "RIFF" ++ u32le (36 + dataSize) ++ strBytes "WAVE" ++
    strBytes "fmt " ++ u32le 16 ++ u16le 1 ++ u16le channels ++
    u32le sampleRate ++ u32le byteRate ++ u16le blockAlign ++
    u16le bitsPerSample ++ strBytes "data" ++ u32le dataSize

/-- `pcmToWav(pcmData, sampleRate, channels, bitsPerSample)`. -/
def pcmToWav (pcmData : List Byte) (sampleRate channels bitsPerSample : Nat) :
    Option (List Byte) :=
  if 36 + pcmData.length ≤ 4294967295 ∧ channels ≤ 65535 ∧
      sampleRate ≤ 4294967295 ∧
      sampleRate * channels * (bitsPerSample / 8) ≤ 4294967295 ∧
      channels * (bitsPerSample / 8) ≤ 65535 ∧ bitsPerSample ≤ 65535 then
    some (wavHeader pcmData.length sampleRate channels bitsPerSample
            (sampleRate * channels * (bitsPerSample / 8))
            (channels * (bitsPerSample / 8)) ++ pcmData)
  else none

/-- Decode the 4 bytes at `off` as an unsigned little-endian 32-bit value
(how a consumer extracts the data-size field at offset 40). -/
def readUInt32LE (w : List Byte) (off : Nat) : Nat :=
  (w.drop off).getD 0 0 + 256 * (w.drop off).getD 1 0 +
    65536 * (w.drop off).getD 2 0 + 16777216 * (w.drop off).getD 3 0

/-! ## VoiceManager speech queue (`src/voice/voice-manager.ts`)

State touched by `speak` / `processTTSQueue` / `interrupt`: the FIFO
`pendingSpeech`, the `isProcessingTTS` flag, the `VoiceState`, and the
configuration flag `interruptEnabled`.  In addition the model records the
texts submitted, the texts handed to `ttsProvider.speak` (in order), and the
items whose audio playback has begun but not yet finished (`inflight`). -/

structure TTSQueueState where
  state : VoiceState
  interruptEnabled : Bool
  pendingSpeech : List String
  isProcessingTTS : Bool
  inflight : List String
  started : List String
  submitted : List String
deriving DecidableEq, Repr

def TTSQueueState.init : TTSQueueState :=
  ⟨VoiceState.idle, true, [], false, [], [], []⟩

/-- One run of `processTTSQueue()` up to its next suspension point
(voice-manager.ts lines 84-104): with an empty queue it clears
`isProcessingTTS` and moves SPEAKING → IDLE; otherwise it sets the flag,
shifts the head of the queue and invokes `ttsProvider.speak` on it (the item
is now started and in flight). -/
def processTTSQueue (s : TTSQueueState) : TTSQueueState :=
  match s.pendingSpeech with
  | [] =>
    { s with isProcessingTTS := false,
             state := if s.state = VoiceState.speaking then VoiceState.idle else s.state }
  | text :: rest =>
    { s with isProcessingTTS := true, pendingSpeech := rest,
             started := s.started ++ [text], inflight := s.inflight ++ [text] }

/-- `speak(text)` (voice-manager.ts lines 69-79): push onto the queue, then
run `processTTSQueue` unless `isProcessingTTS` is set. -/
def speakCmd (text : String) (s : TTSQueueState) : TTSQueueState :=
  let s1 := { s with pendingSpeech := s.pendingSpeech ++ [text],
                     submitted := s.submitted ++ [text] }
  if s1.isProcessingTTS then s1 else processTTSQueue s1

/-- The oldest in-flight item finishes playing.  The ElevenLabs provider then
fires the `onEnd` callback BEFORE resolving the promise returned by `speak`
(elevenlabs provider: `playAudio(...).then(() => { this.isSpeaking = false;
this.onEndCallback?.(); resolve(); })`), so two `processTTSQueue` runs follow:
first the one driven by the `onEnd` wiring of `VoiceManager.initialize`
(voice-manager.ts lines 49-51), then − after `resolve()` lets the suspended
`await ttsProvider.speak(text)` resume − the unconditional recursive call at
voice-manager.ts line 103. -/
def finishOldest (s : TTSQueueState) : TTSQueueState :=
  match s.inflight with
  | [] => s
  | _ :: rest => processTTSQueue (processTTSQueue { s with inflight := rest })

/-- `interrupt()` (voice-manager.ts lines 139-145): only when
`config.interruptEnabled` holds and the state is SPEAKING, clear the queue,
stop the provider (terminating in-flight playback) and go to IDLE.  The
returned Bool reports whether `ttsProvider.stop()` was invoked. -/
def interrupt (s : TTSQueueState) : TTSQueueState × Bool :=
  if s.interruptEnabled ∧ s.state = VoiceState.speaking then
    ({ s with pendingSpeech := [], inflight := [], state := VoiceState.idle }, true)
  else (s, false)

/-! ## The ptt:end handler (`src/voice/voice-manager.ts` lines 182-205)

`VoiceManager.setupEventHandlers` reacts to `ptt:end`: bail out unless the
state is LISTENING; otherwise go to PROCESSING, stop the recording, dispatch
the buffer to the STT provider and act on its outcome.  The provider call is
asynchronous; its eventual outcome is passed in as `sttResult`. -/

inductive VMEvent where
  | transcription (text : String)
  | errorEvt (msg : String)
deriving DecidableEq, Repr

structure VMState where
  state : VoiceState
  engine : AudioEngine
deriving DecidableEq, Repr

/-- The `ptt:end` handler.  Returns the new state, the audio buffer handed to
the transcription pipeline (`none` when none was produced), and the events
emitted. -/
def pttEnd (s : VMState) (sttResult : Except String String) :
    VMState × Option (List Byte) × List VMEvent :=
  if s.state ≠ VoiceState.listening then (s, none, [])
  else
    let (engine1, audioBuffer) := stopRecording s.engine
    match sttResult with
    | Except.ok transcript =>
      if transcript.trim ≠ "" then
        (⟨VoiceState.processing, engine1⟩, some audioBuffer,
          [VMEvent.transcription transcript])
      else
        (⟨VoiceState.idle, engine1⟩, some audioBuffer, [])
    | Except.error msg =>
      (⟨VoiceState.idle, engine1⟩, some audioBuffer, [VMEvent.errorEvt msg])

/-! ## Session addressing -/

/-- Modelled from the spec: the port-derivation routine of SessionAddressing
(spec §4.6) is not among the sources under verification − the daemon
constructor (`src/daemon/index.ts` lines 22-30) only receives an already
chosen port, and the discovery scripts only read the published port files.
Per the spec, the hash is a pure, stable function of the terminal-identity
string; we model it as a 32-bit polynomial string hash. -/
def stableHash (identity : String) : Nat :=
  identity.data.foldl (fun h c => (h * 31 + c.toNat) % 4294967296) 0

/-- Modelled from the spec: "Given a terminal-identity string,
deterministically derive a port in a fixed reserved range via a stable hash,
unless a port is explicitly supplied" (spec §4.6).  The reserved range is the
1000 ports starting at the daemon's default port 17394. -/
def derivePort (identity : String) (explicitPort : Option Nat) : Nat :=
  match explicitPort with
  | some p => p
  | none => 17394 + stableHash identity % 1000

/-! ## ElevenLabs provider (`src/voice/tts/elevenlabs.ts`)

`cleanTextForSpeech` is a pipeline of ten JavaScript `String.replace` calls
with global regexes.  Each regex is embedded as a left-to-right scanner over
`List Char` that at each position either applies the (unique, leftmost)
match of the pattern starting there and continues after it, or emits the
character and moves one position right − exactly the behaviour of a global
`replace` for these patterns (none of them can backtrack into a different
match, since every repeated class excludes its closing delimiter).

The scanners recurse on computed strict suffixes, so they take an explicit
fuel argument; the wrappers supply the input length as fuel, which every
step strictly decreases below, hence the fuel-exhausted branch (written to
return the input unchanged) is never reached. -/

def backtick : Char := '\x60'

/-- The ASCII whitespace matched by the regex class `\s` (the class also
matches some Unicode space codepoints, which our inputs do not contain). -/
def isJsSpace (c : Char) : Bool :=
  c = ' ' || c = '\t' || c = '\n' || c = '\r' || c = '\x0b' || c = '\x0c'

/-- Drop everything up to and including the first occurrence of three
consecutive backticks; `none` when there is no such occurrence. -/
def dropThroughTriple : List Char → Option (List Char)
  | [] => none
  | c :: cs =>
    if c = backtick ∧ cs.take 2 = [backtick, backtick] then some (cs.drop 2)
    else dropThroughTriple cs

/-- Remove code blocks: three backticks, a lazy `[\s\S]*?` body, three
closing backticks.  Without a closing triple after an opening one, no match
can start anywhere in the remainder, which is kept verbatim. -/
def removeCodeBlocksF : Nat → List Char → List Char
  | 0, l => l
  | _ + 1, [] => []
  | fuel + 1, c :: cs =>
    if c = backtick ∧ cs.take 2 = [backtick, backtick] then
      match dropThroughTriple (cs.drop 2) with
      | some rest => removeCodeBlocksF fuel rest
      | none => c :: cs
    else c :: removeCodeBlocksF fuel cs

/-- Remove inline code: a backtick, one or more non-backticks, a backtick. -/
def removeInlineCodeF : Nat → List Char → List Char
  | 0, l => l
  | _ + 1, [] => []
  | fuel + 1, c :: cs =>
    if c = backtick then
      let inner := cs.takeWhile (fun x => x ≠ backtick)
      let rest := cs.dropWhile (fun x => x ≠ backtick)
      if inner ≠ [] ∧ rest ≠ [] then removeInlineCodeF fuel (rest.drop 1)
      else c :: removeInlineCodeF fuel cs
    else c :: removeInlineCodeF fuel cs

/-- Remove markdown headers: at a line start (string start or just after a
newline), one or more hashes followed by one or more (greedy) whitespace
characters.  The Bool tracks whether the current position is a line start;
after a removed match it is one exactly when the last consumed whitespace
character was a newline. -/
def removeHeadersF : Nat → Bool → List Char → List Char
  | 0, _, l => l
  | _ + 1, _, [] => []
  | fuel + 1, atLineStart, c :: cs =>
    if atLineStart ∧ c = '#' then
      let afterHashes := cs.dropWhile (fun x => x = '#')
      let sp := afterHashes.takeWhile isJsSpace
      if sp ≠ [] then
        removeHeadersF fuel (decide (sp.getLast? = some '\n'))
          (afterHashes.dropWhile isJsSpace)
      else c :: removeHeadersF fuel false cs
    else c :: removeHeadersF fuel (decide (c = '\n')) cs

/-- Remove a doubled delimiter (`**` bold, `__` bold-underscore): two
delimiters, one or more characters excluding the delimiter (kept), two
delimiters. -/
def removeDelim2F (d : Char) : Nat → List Char → List Char
  | 0, l => l
  | _ + 1, [] => []
  | fuel + 1, c :: cs =>
    if c = d ∧ cs.take 1 = [d] then
      let inner := (cs.drop 1).takeWhile (fun x => x ≠ d)
      let rest := (cs.drop 1).dropWhile (fun x => x ≠ d)
      if inner ≠ [] ∧ rest.take 2 = [d, d] then
        inner ++ removeDelim2F d fuel (rest.drop 2)
      else c :: removeDelim2F d fuel cs
    else c :: removeDelim2F d fuel cs

/-- Remove a single delimiter (`*` italic, `_` italic-underscore): the
delimiter, one or more characters excluding it (kept), the delimiter. -/
def removeDelim1F (d : Char) : Nat → List Char → List Char
  | 0, l => l
  | _ + 1, [] => []
  | fuel + 1, c :: cs =>
    if c = d then
      let inner := cs.takeWhile (fun x => x ≠ d)
      let rest := cs.dropWhile (fun x => x ≠ d)
      if inner ≠ [] ∧ rest.take 1 = [d] then
        inner ++ removeDelim1F d fuel (rest.drop 1)
      else c :: removeDelim1F d fuel cs
    else c :: removeDelim1F d fuel cs

/-- Remove links, keeping the label: `[label](url)` with a non-empty
bracket-free label and a non-empty parenthesis-free url. -/
def removeLinksF : Nat → List Char → List Char
  | 0, l => l
  | _ + 1, [] => []
  | fuel + 1, c :: cs =>
    if c = '[' then
      let label := cs.takeWhile (fun x => x ≠ ']')
      let rest1 := cs.dropWhile (fun x => x ≠ ']')
      if label ≠ [] ∧ rest1.take 2 = [']', '('] then
        let url := (rest1.drop 2).takeWhile (fun x => x ≠ ')')
        let rest2 := (rest1.drop 2).dropWhile (fun x => x ≠ ')')
        if url ≠ [] ∧ rest2.take 1 = [')'] then
          label ++ removeLinksF fuel (rest2.drop 1)
        else c :: removeLinksF fuel cs
      else c :: removeLinksF fuel cs
    else c :: removeLinksF fuel cs

/-- Collapse every maximal run of whitespace to a single space (`\s+`→`' '`). -/
def collapseWsF : Nat → List Char → List Char
  | 0, l => l
  | _ + 1, [] => []
  | fuel + 1, c :: cs =>
    if isJsSpace c then ' ' :: collapseWsF fuel (cs.dropWhile isJsSpace)
    else c :: collapseWsF fuel cs

/-- JavaScript `String.trim()` (on the ASCII whitespace subset). -/
def jsTrim (l : List Char) : List Char :=
  ((l.dropWhile isJsSpace).reverse.dropWhile isJsSpace).reverse

def removeCodeBlocks (l : List Char) : List Char := removeCodeBlocksF l.length l
def removeInlineCode (l : List Char) : List Char := removeInlineCodeF l.length l
def removeHeaders (l : List Char) : List Char := removeHeadersF l.length true l
def removeDelim2 (d : Char) (l : List Char) : List Char := removeDelim2F d l.length l
def removeDelim1 (d : Char) (l : List Char) : List Char := removeDelim1F d l.length l
def removeLinks (l : List Char) : List Char := removeLinksF l.length l
def collapseWs (l : List Char) : List Char := collapseWsF l.length l

/-- `cleanTextForSpeech(text)` (elevenlabs.ts lines 228-246): the ten
replaces in source order − code blocks, inline code, headers, `**`, `*`,
`__`, `_`, links, whitespace collapse − followed by `trim()`. -/
def cleanTextForSpeech (text : List Char) : List Char :=
  jsTrim (collapseWs (removeLinks (removeDelim1 '_' (removeDelim2 '_'
    (removeDelim1 '*' (removeDelim2 '*' (removeHeaders (removeInlineCode
      (removeCodeBlocks text)))))))))

/-- The observable shape of one `ElevenLabsProvider.speak(text)` call. -/
inductive SpeakOutcome where
  | notConfigured
  | emptyReturn
  | streams (cleanText : List Char)
deriving DecidableEq, Repr

/-- The side effects of a `speak` call: WebSocket connection to the
synthesis backend, audio playback, and the two registered callbacks. -/
structure SpeakEffects where
  wsOpened : Bool
  audioPlayed : Bool
  onStartFired : Bool
  onEndFired : Bool
deriving DecidableEq, Repr

/-- `ElevenLabsProvider.speak(text)` (elevenlabs.ts lines 41-49): throw when
not configured; sanitize the text; resolve immediately when the sanitized
text is blank; otherwise open the streaming WebSocket (`hasConfig` is
`this.config !== null`, which `initialize` establishes). -/
def elevenSpeak (hasConfig : Bool) (text : List Char) : SpeakOutcome :=
  if ¬hasConfig then SpeakOutcome.notConfigured
  else
    let cleanText := cleanTextForSpeech text
    if jsTrim cleanText = [] then SpeakOutcome.emptyReturn
    else SpeakOutcome.streams cleanText

/-- Effects of the successful paths: an early return touches nothing; a
streamed utterance opens the connection, plays audio and fires both
callbacks. -/
def effectsOf : SpeakOutcome → SpeakEffects
  | SpeakOutcome.streams _ => ⟨true, true, true, true⟩
  | _ => ⟨false, false, false, false⟩

/-! ## Helper lemmas -/

theorem strBytes_RIFF : strBytes "RIFF" = [82, 73, 70, 70] := by decide

theorem strBytes_WAVE : strBytes "WAVE" = [87, 65, 86, 69] := by decide

theorem strBytes_fmt : strBytes "fmt " = [102, 109, 116, 32] := by decide

theorem strBytes_data : strBytes "data" = [100, 97, 116, 97] := by decide

theorem u32le_length (v : Nat) : (u32le v).length = 4 := rfl

theorem u16le_length (v : Nat) : (u16le v).length = 2 := rfl

theorem wavHeader_length (ds sr ch bits br ba : Nat) :
    (wavHeader ds sr ch bits br ba).length = 44 := by
  simp [wavHeader, strBytes_RIFF, strBytes_WAVE, strBytes_fmt, strBytes_data,
    u32le, u16le]

/-- The first twelve writes occupy bytes 0-39; the data-size field is the
final 4-byte write at offset 40. -/
theorem wavHeader_split (ds sr ch bits br ba : Nat) :
    wavHeader ds sr ch bits br ba =
      (strBytes "RIFF" ++ u32le (36 + ds) ++ strBytes "WAVE" ++
        strBytes "fmt " ++ u32le 16 ++ u16le 1 ++ u16le ch ++
        u32le sr ++ u32le br ++ u16le ba ++ u16le bits ++ strBytes "data") ++
      u32le ds := by
  simp [wavHeader, List.append_assoc]

theorem wavHeader_prefix_length (ds sr ch bits br ba : Nat) :
    (strBytes "RIFF" ++ u32le (36 + ds) ++ strBytes "WAVE" ++
      strBytes "fmt " ++ u32le 16 ++ u16le 1 ++ u16le ch ++
      u32le sr ++ u32le br ++ u16le ba ++ u16le bits ++ strBytes "data").length = 40 := by
  simp [strBytes_RIFF, strBytes_WAVE, strBytes_fmt, strBytes_data, u32le, u16le]

/-! ## Claims -/

/-- C1: the transcript mailbox is read-and-clear: `getTranscription` (served
by `GET /transcription`) returns the stored transcript and leaves the slot
empty, so a second read with no intervening recording returns the empty
string; reading an empty mailbox returns the empty string with status 200,
never an error. -/
theorem transcription_mailbox_read_and_clear (s : ListenerState) (body : String) :
    (getTranscription s).1 = s.lastTranscription ∧
    (getTranscription s).2.lastTranscription = "" ∧
    (getTranscription (getTranscription s).2).1 = "" ∧
    handleRequest Method.get "/transcription" body s =
      ({ s with lastTranscription := "" }, ⟨200, s.lastTranscription⟩, []) ∧
    (handleRequest Method.get "/transcription" body
        (handleRequest Method.get "/transcription" body s).1).2.1 = ⟨200, ""⟩ := by
  refine ⟨rfl, rfl, rfl, ?_, ?_⟩ <;> simp [handleRequest, getTranscription]

/-- C2: a `begin-capture` while capture is already active is a no-op:
`handleStart` leaves the listener state unchanged and emits no `ptt:start`
(so arbitrary repetitions also leave it unchanged), and
`AudioEngine.startRecording` while recording spawns no second capture. -/
theorem begin_capture_while_listening_noop (s : ListenerState) (e : AudioEngine)
    (hs : s.pttActive = true) (he : e.isRecording = true) :
    handleStart s = (s, []) ∧
    (∀ n : Nat, (fun st => (handleStart st).1)^[n] s = s) ∧
    startRecording e = (e, false) := by
  have h1 : handleStart s = (s, []) := by simp [handleStart, hs]
  refine ⟨h1, ?_, by simp [startRecording, he]⟩
  intro n
  induction n with
  | zero => rfl
  | succ n ih => rw [Function.iterate_succ_apply, h1]; exact ih

theorem begin_capture_while_listening_noop_witness :
    handleStart ⟨true, "t"⟩ = (⟨true, "t"⟩, []) ∧
    startRecording ⟨true, true, [[1]]⟩ = (⟨true, true, [[1]]⟩, false) :=
  ⟨(begin_capture_while_listening_noop ⟨true, "t"⟩ ⟨true, true, [[1]]⟩ rfl rfl).1,
   (begin_capture_while_listening_noop ⟨true, "t"⟩ ⟨true, true, [[1]]⟩ rfl rfl).2.2⟩

/-- C3: an `end-capture` while the session is Idle is a no-op: `handleStop`
with `pttActive` false emits no `ptt:end` and changes nothing, and even a
`ptt:end` reaching the manager while the state is not LISTENING produces no
audio buffer, dispatches nothing and leaves the state unchanged. -/
theorem end_capture_while_idle_noop (ls : ListenerState) (d : VMState)
    (r : Except String String) (hls : ls.pttActive = false)
    (hd : d.state = VoiceState.idle) :
    handleStop ls = (ls, []) ∧ pttEnd d r = (d, none, []) := by
  refine ⟨by simp [handleStop, hls], ?_⟩
  simp [pttEnd, hd]

theorem end_capture_while_idle_noop_witness :
    handleStop ⟨false, ""⟩ = (⟨false, ""⟩, []) ∧
    pttEnd ⟨VoiceState.idle, ⟨false, false, [[7]]⟩⟩ (Except.ok "hi") =
      (⟨VoiceState.idle, ⟨false, false, [[7]]⟩⟩, none, []) :=
  end_capture_while_idle_noop ⟨false, ""⟩ ⟨VoiceState.idle, ⟨false, false, [[7]]⟩⟩
    (Except.ok "hi") rfl rfl

/-- C4 counterexample: after a recording of chunk `[1, 2]` has been stopped
and handed off, no capture is active, yet a repeated `stopRecording` returns
`[1, 2]` again − not the empty buffer the claim requires (the source never
clears `audioBuffer` on stop; only the next `startRecording` resets it). -/
theorem repeated_stop_returns_previous_buffer :
    ((stopRecording (dataChunk [1, 2] (startRecording AudioEngine.init).1)).1.isRecording
        = false) ∧
    (stopRecording
        (stopRecording (dataChunk [1, 2] (startRecording AudioEngine.init).1)).1).2
      = [1, 2] ∧
    ([1, 2] : List Byte) ≠ [] := by decide

/-- C4 (amended): `stopRecording` always returns the concatenation of the
chunks retained since the most recent `startRecording`; the chunk store is
not cleared by the stop, so a repeated stop returns the same buffer again,
which is empty exactly when no chunks were captured. -/
theorem stop_recording_returns_retained_chunks (e : AudioEngine) :
    (stopRecording e).2 = e.audioBuffer.flatten ∧
    (stopRecording e).1.isRecording = false ∧
    (stopRecording (stopRecording e).1).2 = (stopRecording e).2 ∧
    ((stopRecording e).2 = [] ↔ e.audioBuffer.flatten = []) :=
  ⟨rfl, rfl, rfl, Iff.rfl⟩

/-- C5: whenever `pcmToWav b rate channels bits` produces a container, the
container is 44 bytes of header followed by exactly `b`, and the data-size
field at offset 40 decodes to `|b|`, so extracting the data chunk recovers
`b` byte-identically. -/
theorem pcm_to_wav_roundtrip (b : List Byte) (rate ch bits : Nat) (w : List Byte)
    (h : pcmToWav b rate ch bits = some w) :
    w.length = 44 + b.length ∧ w.drop 44 = b ∧ readUInt32LE w 40 = b.length := by
  unfold pcmToWav at h
  split at h
  case isFalse => exact absurd h (by simp)
  case isTrue hc =>
    have hw : wavHeader b.length rate ch bits (rate * ch * (bits / 8))
        (ch * (bits / 8)) ++ b = w := by injection h
    subst hw
    refine ⟨?_, ?_, ?_⟩
    · simp [wavHeader_length]
    · have := wavHeader_length b.length rate ch bits (rate * ch * (bits / 8))
        (ch * (bits / 8))
      rw [show (44 : Nat) = (wavHeader b.length rate ch bits
          (rate * ch * (bits / 8)) (ch * (bits / 8))).length from this.symm]
      exact List.drop_left _ _
    · rw [wavHeader_split, List.append_assoc]
      rw [show (40 : Nat) = (strBytes "RIFF" ++ u32le (36 + b.length) ++
          strBytes "WAVE" ++ strBytes "fmt " ++ u32le 16 ++ u16le 1 ++
          u16le ch ++ u32le rate ++ u32le (rate * ch * (bits / 8)) ++
          u16le (ch * (bits / 8)) ++ u16le bits ++ strBytes "data").length from
        (wavHeader_prefix_length b.length rate ch bits _ _).symm]
      unfold readUInt32LE
      rw [List.drop_left]
      have hb : b.length < 4294967296 := by omega
      simp only [u32le, List.cons_append, List.nil_append, List.getD_cons_zero,
        List.getD_cons_succ]
      omega

theorem pcm_to_wav_roundtrip_witness :
    pcmToWav [9, 8, 7] 16000 1 16 =
      some (wavHeader 3 16000 1 16 32000 2 ++ [9, 8, 7]) ∧
    (wavHeader 3 16000 1 16 32000 2 ++ [9, 8, 7]).drop 44 = [9, 8, 7] ∧
    readUInt32LE (wavHeader 3 16000 1 16 32000 2 ++ [9, 8, 7]) 40 = 3 :=
  ⟨by decide,
   (pcm_to_wav_roundtrip [9, 8, 7] 16000 1 16 _ (by decide)).2.1,
   (pcm_to_wav_roundtrip [9, 8, 7] 16000 1 16 _ (by decide)).2.2⟩

/-- C6: the speech-queue discipline is broken by a double drive.  When the
oldest item finishes, the provider fires `onEnd` (which runs
`processTTSQueue` and hands the next item to the provider) before resolving
the awaited promise; the resumed recursion then sees an empty queue and
clears `isProcessingTTS` while that item is still in flight, so a subsequent
`speak` starts concurrently: after `speak "a"; speak "b"`, the finish of
`"a"`, then `speak "c"`, both `"b"` and `"c"` are in flight at once −
contradicting the claim that the next item never begins before the previous
promise settles (no overlap).  Submission order of the handed-over texts is
nevertheless preserved. -/
theorem tts_queue_overlap_after_finish :
    (finishOldest (speakCmd "b" (speakCmd "a" TTSQueueState.init))).isProcessingTTS
      = false ∧
    (finishOldest (speakCmd "b" (speakCmd "a" TTSQueueState.init))).inflight
      = ["b"] ∧
    (speakCmd "c" (finishOldest (speakCmd "b" (speakCmd "a"
        TTSQueueState.init)))).inflight = ["b", "c"] ∧
    (speakCmd "c" (finishOldest (speakCmd "b" (speakCmd "a"
        TTSQueueState.init)))).started = ["a", "b", "c"] := by decide

/-- C7 counterexample: in a Speaking session with interruption disabled in
the configuration, `interrupt` is a no-op, so the pending-speech queue keeps
its item instead of having length 0. -/
theorem interrupt_disabled_keeps_queue :
    ((⟨VoiceState.speaking, false, ["x"], true, ["y"], ["y"], ["y", "x"]⟩ :
        TTSQueueState).state = VoiceState.speaking) ∧
    (interrupt ⟨VoiceState.speaking, false, ["x"], true, ["y"], ["y"],
        ["y", "x"]⟩).1.pendingSpeech.length = 1 := by decide

/-- C7 (amended): for a Speaking session WITH interruption enabled,
`interrupt` empties the pending-speech queue, stops the in-flight playback
via the provider, moves the state to Idle, and afterwards neither queue
driver (`processTTSQueue` or a finish event) starts any item, so nothing
begins until a new `speak` call enqueues again. -/
theorem interrupt_clears_queue_and_stops (s : TTSQueueState)
    (h1 : s.interruptEnabled = true) (h2 : s.state = VoiceState.speaking) :
    (interrupt s).1.pendingSpeech = [] ∧
    (interrupt s).1.inflight = [] ∧
    (interrupt s).1.state = VoiceState.idle ∧
    (interrupt s).2 = true ∧
    (processTTSQueue (interrupt s).1).started = (interrupt s).1.started ∧
    finishOldest (interrupt s).1 = (interrupt s).1 := by
  simp [interrupt, h1, h2, processTTSQueue, finishOldest]

theorem interrupt_clears_queue_and_stops_witness :
    (interrupt ⟨VoiceState.speaking, true, ["x"], true, ["y"], ["y"],
        ["y", "x"]⟩).1.pendingSpeech = [] ∧
    (interrupt ⟨VoiceState.speaking, true, ["x"], true, ["y"], ["y"],
        ["y", "x"]⟩).1.inflight = [] ∧
    (interrupt ⟨VoiceState.speaking, true, ["x"], true, ["y"], ["y"],
        ["y", "x"]⟩).1.state = VoiceState.idle ∧
    (interrupt ⟨VoiceState.speaking, true, ["x"], true, ["y"], ["y"],
        ["y", "x"]⟩).2 = true ∧
    (processTTSQueue (interrupt ⟨VoiceState.speaking, true, ["x"], true, ["y"],
        ["y"], ["y", "x"]⟩).1).started =
      (interrupt ⟨VoiceState.speaking, true, ["x"], true, ["y"], ["y"],
        ["y", "x"]⟩).1.started ∧
    finishOldest (interrupt ⟨VoiceState.speaking, true, ["x"], true, ["y"],
        ["y"], ["y", "x"]⟩).1 =
      (interrupt ⟨VoiceState.speaking, true, ["x"], true, ["y"], ["y"],
        ["y", "x"]⟩).1 :=
  interrupt_clears_queue_and_stops
    ⟨VoiceState.speaking, true, ["x"], true, ["y"], ["y"], ["y", "x"]⟩ rfl rfl

/-- C8 counterexample: `GET /ptt/start` uses the wrong method for a defined
route, yet the server answers 404 ("not found"), not the 405 the claim
requires − the handler dispatches on the method first, so a wrong-but-
supported method falls into that method's unknown-path branch. -/
theorem wrong_method_on_defined_route_gets_404 :
    handleRequest Method.get "/ptt/start" "" ⟨false, "t"⟩ =
      (⟨false, "t"⟩, ⟨404, "not found"⟩, []) ∧
    (handleRequest Method.get "/ptt/start" "" ⟨false, "t"⟩).2.1.status ≠ 405 := by
  decide

/-- C8 (amended): a GET or POST to a path that is not one of that method's
routes is answered 404; a request with any method other than GET, POST or
OPTIONS is answered 405 regardless of path (so a wrong-but-supported method
yields 404, not 405); none of these requests changes the listener state or
the mailbox, and none emits an event. -/
theorem unknown_route_and_method_handling (s : ListenerState) (body : String) :
    (∀ url, url ≠ "/transcription" → url ≠ "/status" →
      handleRequest Method.get url body s = (s, ⟨404, "not found"⟩, [])) ∧
    (∀ url, url ≠ "/ptt/start" → url ≠ "/ptt/stop" → url ≠ "/ptt/toggle" →
      url ≠ "/speak" →
      handleRequest Method.post url body s = (s, ⟨404, "not found"⟩, [])) ∧
    (∀ url, handleRequest Method.put url body s =
      (s, ⟨405, "method not allowed"⟩, [])) ∧
    (∀ url, handleRequest Method.delete url body s =
      (s, ⟨405, "method not allowed"⟩, [])) := by
  refine ⟨?_, ?_, fun _ => rfl, fun _ => rfl⟩
  · intro url h1 h2
    simp [handleRequest, h1, h2]
  · intro url h1 h2 h3 h4
    simp [handleRequest, h1, h2, h3, h4]

theorem unknown_route_and_method_handling_witness :
    handleRequest Method.get "/nope" "" ⟨false, "t"⟩ =
      (⟨false, "t"⟩, ⟨404, "not found"⟩, []) ∧
    handleRequest Method.post "/nope" "" ⟨false, "t"⟩ =
      (⟨false, "t"⟩, ⟨404, "not found"⟩, []) ∧
    handleRequest Method.put "/status" "" ⟨false, "t"⟩ =
      (⟨false, "t"⟩, ⟨405, "method not allowed"⟩, []) :=
  ⟨(unknown_route_and_method_handling ⟨false, "t"⟩ "").1 "/nope"
      (by decide) (by decide),
   (unknown_route_and_method_handling ⟨false, "t"⟩ "").2.1 "/nope"
      (by decide) (by decide) (by decide) (by decide),
   (unknown_route_and_method_handling ⟨false, "t"⟩ "").2.2.1 "/status"⟩

/-- C9: deterministic addressing (port derivation modelled from the spec,
see `derivePort`): absent an explicit port, the derived port is a pure
function of the terminal identity lying in the fixed reserved range
[17394, 18394); an explicitly supplied port is used as-is; and the two
Scenario-E identities "A" and "B" receive different stable ports. -/
theorem port_derivation_deterministic :
    (∀ identity : String, 17394 ≤ derivePort identity none ∧
      derivePort identity none < 17394 + 1000 ∧
      ∀ p, derivePort identity (some p) = p) ∧
    derivePort "A" none ≠ derivePort "B" none := by
  constructor
  · intro identity
    refine ⟨Nat.le_add_right _ _, ?_, fun _ => rfl⟩
    have h := Nat.mod_lt (stableHash identity) (show 0 < 1000 by norm_num)
    simp only [derivePort]
    omega
  · decide

/-- C10: when the sanitized form of the input text is empty, `speak` on a
configured ElevenLabs provider returns before constructing the WebSocket:
no connection is opened, no audio is played, and neither the onStart nor the
onEnd callback fires. -/
theorem empty_sanitized_text_is_silent (t : List Char)
    (h : cleanTextForSpeech t = []) :
    elevenSpeak true t = SpeakOutcome.emptyReturn ∧
    effectsOf (elevenSpeak true t) = ⟨false, false, false, false⟩ := by
  have hs : elevenSpeak true t = SpeakOutcome.emptyReturn := by
    simp [elevenSpeak, h, jsTrim]
  exact ⟨hs, by rw [hs]; rfl⟩

theorem empty_sanitized_text_is_silent_witness :
    cleanTextForSpeech ['\x60', 'c', '\x60'] = [] ∧
    elevenSpeak true ['\x60', 'c', '\x60'] = SpeakOutcome.emptyReturn ∧
    effectsOf (elevenSpeak true ['\x60', 'c', '\x60']) =
      ⟨false, false, false, false⟩ := by
  have h : cleanTextForSpeech ['\x60', 'c', '\x60'] = [] := by decide
  exact ⟨h, (empty_sanitized_text_is_silent _ h).1,
    (empty_sanitized_text_is_silent _ h).2⟩

end ClaudeVoice
